import Mathlib

/-!
Verification of the agent token orchestration engine in `demo_token_flow.py`.

The Python source is embedded shallowly: network randomness (the PKCE
verifier) and provider responses are explicit parameters, every function
is a pure Lean definition, and machine behaviour such as Python string
truthiness, `dict.get`, base64 and SHA-256 is modelled explicitly.
-/

namespace TokenFlow

/-- Python truthiness of an optional string: `None` and `""` are falsy. -/
def pyTruthy : Option String → Bool
  | none => false
  | some s => !(s == "")

/-- Python `a or b` on two optional strings: yields `b` whenever `a` is falsy. -/
def pyOr (a b : Option String) : Option String :=
  if pyTruthy a then a else b

/-- Python `str` rendering of an optional string as it appears in an f-string. -/
def pyStrOpt : Option String → String
  | none => "None"
  | some s => s

/-- ASCII bytes of a string, modelling `s.encode('ascii')` for ASCII input. -/
def asciiBytes (s : String) : List Nat :=
  s.data.map Char.toNat

/-! ## Base64 (standard and URL-safe alphabets), as used by `base64.b64encode`
and `base64.urlsafe_b64encode` / `urlsafe_b64decode`. -/

/-- The standard base64 alphabet. -/
def stdAlphabet : List Char :=
  "ABCDEFGHIJKLMNOPQRSTUVWXYZabcdefghijklmnopqrstuvwxyz0123456789+/".data

/-- The URL-safe base64 alphabet. -/
def urlAlphabet : List Char :=
  "ABCDEFGHIJKLMNOPQRSTUVWXYZabcdefghijklmnopqrstuvwxyz0123456789-_".data

/-- The base64 digit for a 6-bit value. -/
def b64digit (alpha : List Char) (n : Nat) : Char :=
  alpha.getD (n % 64) 'A'

/-- The data characters of a base64 encoding (no padding appended). -/
def b64body (alpha : List Char) : List Nat → List Char
  | a :: b :: c :: rest =>
    let n := a % 256 * 65536 + b % 256 * 256 + c % 256
    b64digit alpha (n / 262144) :: b64digit alpha (n / 4096) ::
      b64digit alpha (n / 64) :: b64digit alpha n :: b64body alpha rest
  | [a, b] =>
    let n := a % 256 * 1024 + b % 256 * 4
    [b64digit alpha (n / 4096), b64digit alpha (n / 64), b64digit alpha n]
  | [a] =>
    let n := a % 256 * 16
    [b64digit alpha (n / 64), b64digit alpha n]
  | [] => []

/-- The `=` padding appended by Python's `base64.b64encode` for a message of
length `l`. -/
def b64padding (l : Nat) : List Char :=
  List.replicate ((3 - l % 3) % 3) '='

/-- Full base64 encoding with padding, as a character list. -/
def b64encodeChars (alpha : List Char) (bs : List Nat) : List Char :=
  b64body alpha bs ++ b64padding bs.length

/-- `base64.b64encode(s.encode()).decode()` for an ASCII string `s`. -/
def b64encodeStr (s : String) : String :=
  String.mk (b64encodeChars stdAlphabet (asciiBytes s))

/-- `bytes.rstrip(b'=')`: drop every trailing `=`. -/
def rstripEq (cs : List Char) : List Char :=
  (cs.reverse.dropWhile (· == '=')).reverse

/-! ## SHA-256 over byte lists, modelling `hashlib.sha256`. Words are `Nat`
reduced modulo `2 ^ 32`. -/

/-- `2 ^ 32`. -/
def M32 : Nat := 4294967296

/-- 32-bit right rotation. -/
def rotr32 (n x : Nat) : Nat :=
  (x / 2 ^ n + x % 2 ^ n * 2 ^ (32 - n)) % M32

/-- SHA-256 round constants. -/
def sha256K : List Nat :=
  [1116352408, 1899447441, 3049323471, 3921009573, 961987163,
   1508970993, 2453635748, 2870763221, 3624381080, 310598401,
   607225278, 1426881987, 1925078388, 2162078206, 2614888103,
   3248222580, 3835390401, 4022224774, 264347078, 604807628,
   770255983, 1249150122, 1555081692, 1996064986, 2554220882,
   2821834349, 2952996808, 3210313671, 3336571891, 3584528711,
   113926993, 338241895, 666307205, 773529912, 1294757372,
   1396182291, 1695183700, 1986661051, 2177026350, 2456956037,
   2730485921, 2820302411, 3259730800, 3345764771, 3516065817,
   3600352804, 4094571909, 275423344, 430227734, 506948616,
   659060556, 883997877, 958139571, 1322822218, 1537002063,
   1747873779, 1955562222, 2024104815, 2227730452, 2361852424,
   2428436474, 2756734187, 3204031479, 3329325298]

/-- SHA-256 initial hash values. -/
def sha256Init : List Nat :=
  [1779033703, 3144134277, 1013904242, 2773480762, 1359893119,
   2600822924, 528734635, 1541459225]

/-- SHA-256 Σ₀. -/
def bigSigma0 (x : Nat) : Nat := rotr32 2 x ^^^ rotr32 13 x ^^^ rotr32 22 x

/-- SHA-256 Σ₁. -/
def bigSigma1 (x : Nat) : Nat := rotr32 6 x ^^^ rotr32 11 x ^^^ rotr32 25 x

/-- SHA-256 σ₀. -/
def smallSigma0 (x : Nat) : Nat := rotr32 7 x ^^^ rotr32 18 x ^^^ (x / 2 ^ 3)

/-- SHA-256 σ₁. -/
def smallSigma1 (x : Nat) : Nat := rotr32 17 x ^^^ rotr32 19 x ^^^ (x / 2 ^ 10)

/-- SHA-256 choice function. -/
def chF (x y z : Nat) : Nat := (x &&& y) ^^^ ((4294967295 - x % M32) &&& z)

/-- SHA-256 majority function. -/
def majF (x y z : Nat) : Nat := (x &&& y) ^^^ (x &&& z) ^^^ (y &&& z)

/-- Big-endian byte rendering of `n` on `k` bytes. -/
def beBytes : Nat → Nat → List Nat
  | 0, _ => []
  | k + 1, n => beBytes k (n / 256) ++ [n % 256]

/-- Group a 64-byte block into sixteen 32-bit big-endian words. -/
def toWords32 : List Nat → List Nat
  | a :: b :: c :: d :: rest =>
    (a % 256 * 16777216 + b % 256 * 65536 + c % 256 * 256 + d % 256) :: toWords32 rest
  | _ => []

/-- Extend the 16-word schedule by `k` further words. -/
def extendW (w : List Nat) : Nat → List Nat
  | 0 => w
  | k + 1 =>
    let l := w.length
    let next := (smallSigma1 (w.getD (l - 2) 0) + w.getD (l - 7) 0 +
      smallSigma0 (w.getD (l - 15) 0) + w.getD (l - 16) 0) % M32
    extendW (w ++ [next]) k

/-- One SHA-256 compression round on the 8-word state, given `K[i] + W[i]`. -/
def sha256Round (st : List Nat) (kw : Nat) : List Nat :=
  match st with
  | [a, b, c, d, e, f, g, h] =>
    let t1 := (h + bigSigma1 e + chF e f g + kw) % M32
    let t2 := (bigSigma0 a + majF a b c) % M32
    [(t1 + t2) % M32, a, b, c, (d + t1) % M32, e, f, g]
  | other => other

/-- Compress one 64-byte block into the running hash state. -/
def sha256Compress (h : List Nat) (block : List Nat) : List Nat :=
  let w := extendW (toWords32 block) 48
  let kw := List.zipWith (fun k wi => (k + wi) % M32) sha256K w
  let st := kw.foldl sha256Round h
  List.zipWith (fun x y => (x + y) % M32) h st

/-- SHA-256 message padding: `0x80`, zeros, and the 64-bit bit length. -/
def sha256Pad (msg : List Nat) : List Nat :=
  let l := msg.length
  msg ++ [0x80] ++ List.replicate ((119 - l % 64) % 64) 0 ++ beBytes 8 (l * 8)

/-- Split a list into 64-byte chunks (fuel-driven, fuel bounds the chunk count). -/
def chunk64Go : Nat → List Nat → List (List Nat)
  | 0, _ => []
  | _, [] => []
  | fuel + 1, bs => bs.take 64 :: chunk64Go fuel (bs.drop 64)

/-- Split a list into 64-byte chunks. -/
def chunksOf64 (bs : List Nat) : List (List Nat) :=
  chunk64Go bs.length bs

/-- `hashlib.sha256(msg).digest()` as a list of 32 bytes. -/
def sha256 (msg : List Nat) : List Nat :=
  let hs := (chunksOf64 (sha256Pad msg)).foldl sha256Compress sha256Init
  (hs.map (beBytes 4)).flatten

/-! ## PKCE generation, embedding `generate_pkce`. The random draw
`secrets.token_urlsafe(64)` is externalised: the verifier is a parameter. -/

/-- Embedding of `generate_pkce` given the randomly drawn verifier:
`challenge = urlsafe_b64encode(sha256(verifier.encode('ascii'))).rstrip(b'=')`. -/
def generate_pkce (verifier : String) : String × String :=
  let digest := sha256 (asciiBytes verifier)
  let challenge := String.mk (rstripEq (b64encodeChars urlAlphabet digest))
  (verifier, challenge)

/-- The spec-side formula: base64url of the SHA-256 digest, generated with no
trailing `=` padding at all. -/
def base64urlNoPad (bs : List Nat) : String :=
  String.mk (b64body urlAlphabet bs)

/-! ## Lenient base64url decoding, modelling `base64.urlsafe_b64decode` as the
non-strict CPython decoder behaves on the inputs reachable from
`decode_jwt_payload` (which always appends 1 to 4 `=` characters): characters
outside the alphabet are ignored, decoding stops at the first `=`, a data
length of `4k+1` is invalid, and a partial final group needs a `=` present. -/

/-- The 6-bit value of a URL-safe base64 character, if it is in the alphabet. -/
def b64urlValue (c : Char) : Option Nat :=
  urlAlphabet.indexOf? c

/-- Decode a run of 6-bit values into bytes; a trailing group of 2 or 3 values
contributes 1 or 2 bytes. -/
def b64groups : List Nat → List Nat
  | a :: b :: c :: d :: rest =>
    let n := a % 64 * 262144 + b % 64 * 4096 + c % 64 * 64 + d % 64
    n / 65536 :: n / 256 % 256 :: n % 256 :: b64groups rest
  | [a, b, c] =>
    let n := a % 64 * 4096 + b % 64 * 64 + c % 64
    [n / 1024, n / 4 % 256]
  | [a, b] =>
    [(a % 64 * 64 + b % 64) / 16]
  | _ => []

/-- `base64.urlsafe_b64decode` on a character sequence, returning `none` where
Python raises `binascii.Error`. -/
def urlsafeB64decode (cs : List Char) : Option (List Nat) :=
  let data := (cs.takeWhile (· != '=')).filterMap b64urlValue
  let hasPad := cs.any (· == '=')
  if data.length % 4 == 0 then some (b64groups data)
  else if data.length % 4 == 1 then none
  else if hasPad then some (b64groups data) else none

/-! ## Python values and a JSON parser modelling `json.loads` on the ASCII
fragment of JSON with integer numerals (the fragment exercised here). -/

/-- A Python value as produced by `json.loads`. -/
inductive PyValue where
  | str : String → PyValue
  | int : Int → PyValue
  | bool : Bool → PyValue
  | null : PyValue
  | arr : List PyValue → PyValue
  | obj : List (String × PyValue) → PyValue

/-- Left brace character (ASCII 123). -/
def lbraceChar : Char := Char.ofNat 123

/-- Right brace character (ASCII 125). -/
def rbraceChar : Char := Char.ofNat 125

/-- Skip JSON whitespace. -/
def skipWs (cs : List Char) : List Char :=
  cs.dropWhile (fun c => c == ' ' || c == '\t' || c == '\n' || c == '\r')

/-- Parse the digits of a natural number. -/
def parseNatDigits (cs : List Char) : Option (Nat × List Char) :=
  let ds := cs.takeWhile Char.isDigit
  if ds.isEmpty then none
  else some (ds.foldl (fun n c => n * 10 + (c.toNat - 48)) 0, cs.dropWhile Char.isDigit)

/-- Parse a JSON integer numeral (no fractions or exponents). -/
def parseIntLit : List Char → Option (Int × List Char)
  | c :: rest =>
    if c == '-' then (parseNatDigits rest).map (fun p => (-(p.1 : Int), p.2))
    else (parseNatDigits (c :: rest)).map (fun p => ((p.1 : Int), p.2))
  | [] => none

/-- Parse the body of a JSON string after the opening quote, handling the
single-character escapes. -/
def parseStrBody (acc : List Char) : List Char → Option (String × List Char)
  | [] => none
  | c :: rest =>
    if c == '"' then some (String.mk acc.reverse, rest)
    else if c == '\\' then
      match rest with
      | [] => none
      | e :: rest2 =>
        if e == '"' then parseStrBody ('"' :: acc) rest2
        else if e == '\\' then parseStrBody ('\\' :: acc) rest2
        else if e == '/' then parseStrBody ('/' :: acc) rest2
        else if e == 'n' then parseStrBody ('\n' :: acc) rest2
        else if e == 't' then parseStrBody ('\t' :: acc) rest2
        else if e == 'r' then parseStrBody ('\r' :: acc) rest2
        else if e == 'b' then parseStrBody (Char.ofNat 8 :: acc) rest2
        else if e == 'f' then parseStrBody (Char.ofNat 12 :: acc) rest2
        else none
    else parseStrBody (c :: acc) rest

mutual

/-- Parse one JSON value; the fuel bounds the recursion depth. -/
def parseValue : Nat → List Char → Option (PyValue × List Char)
  | 0, _ => none
  | fuel + 1, cs =>
    match skipWs cs with
    | [] => none
    | c :: rest =>
      if c == 't' then
        match rest with
        | 'r' :: 'u' :: 'e' :: rest2 => some (.bool true, rest2)
        | _ => none
      else if c == 'f' then
        match rest with
        | 'a' :: 'l' :: 's' :: 'e' :: rest2 => some (.bool false, rest2)
        | _ => none
      else if c == 'n' then
        match rest with
        | 'u' :: 'l' :: 'l' :: rest2 => some (.null, rest2)
        | _ => none
      else if c == '"' then
        (parseStrBody [] rest).map (fun p => (.str p.1, p.2))
      else if c == '[' then
        match skipWs rest with
        | ']' :: rest2 => some (.arr [], rest2)
        | rest2 => (parseElems fuel rest2).map (fun p => (.arr p.1, p.2))
      else if c == lbraceChar then
        match skipWs rest with
        | d :: rest2 =>
          if d == rbraceChar then some (.obj [], rest2)
          else (parseMembers fuel (d :: rest2)).map (fun p => (.obj p.1, p.2))
        | [] => none
      else if c == '-' || c.isDigit then
        (parseIntLit (c :: rest)).map (fun p => (.int p.1, p.2))
      else none

/-- Parse one or more comma-separated array elements up to `]`. -/
def parseElems : Nat → List Char → Option (List PyValue × List Char)
  | 0, _ => none
  | fuel + 1, cs =>
    match parseValue fuel cs with
    | none => none
    | some (v, rest) =>
      match skipWs rest with
      | ',' :: rest2 => (parseElems fuel rest2).map (fun p => (v :: p.1, p.2))
      | ']' :: rest2 => some ([v], rest2)
      | _ => none

/-- Parse one or more comma-separated object members up to the closing brace. -/
def parseMembers : Nat → List Char → Option (List (String × PyValue) × List Char)
  | 0, _ => none
  | fuel + 1, cs =>
    match skipWs cs with
    | '"' :: rest =>
      match parseStrBody [] rest with
      | none => none
      | some (k, rest2) =>
        match skipWs rest2 with
        | ':' :: rest3 =>
          match parseValue fuel rest3 with
          | none => none
          | some (v, rest4) =>
            match skipWs rest4 with
            | ',' :: rest5 => (parseMembers fuel rest5).map (fun p => ((k, v) :: p.1, p.2))
            | d :: rest5 =>
              if d == rbraceChar then some ([(k, v)], rest5) else none
            | [] => none
        | _ => none
    | _ => none

end

/-- `json.loads` on a byte list (ASCII bytes read as characters); `none` where
Python raises. -/
def jsonLoads (bytes : List Nat) : Option PyValue :=
  match parseValue (bytes.length + 1) (bytes.map Char.ofNat) with
  | some (v, rest) => if (skipWs rest).isEmpty then some v else none
  | none => none

/-! ## The claim decoder `decode_jwt_payload`. -/

/-- Python `token.split(".")` on the character sequence: split at every dot,
keeping empty segments. -/
def splitDot : List Char → List (List Char)
  | [] => [[]]
  | c :: rest =>
    let r := splitDot rest
    if c == '.' then [] :: r
    else (c :: r.headD []) :: r.tail

/-- The padded character sequence `payload + "=" * (4 - len(payload) % 4)`
passed to `urlsafe_b64decode`. -/
def jwtPadded (payload : List Char) : List Char :=
  payload ++ List.replicate (4 - payload.length % 4) '='

/-- Embedding of `decode_jwt_payload`: split on `.`, base64url-decode the
second segment after padding, parse as JSON; any failure yields the empty
dict. -/
def decode_jwt_payload (token : String) : PyValue :=
  if (splitDot token.data).length ≥ 2 then
    match urlsafeB64decode (jwtPadded ((splitDot token.data).getD 1 [])) with
    | none => PyValue.obj []
    | some bytes =>
      match jsonLoads bytes with
      | none => PyValue.obj []
      | some v => v
  else PyValue.obj []

/-! ## Protocol layer: the three-step actor-token flow and RFC 8693 token
exchange. Each network call is split into the request it sends (captured in a
trace) and the parsing of the provider's response. Provider responses are
modelled as already-parsed JSON of the shapes the source reads. -/

/-- A Python exception surfaced by the flow. -/
inductive PyErr where
  | valueError : String → PyErr
  | typeError : String → PyErr
  | attributeError : String → PyErr
deriving DecidableEq, Repr

/-- Does this `Except` carry an exception? -/
def isErr : Except PyErr String → Bool
  | .error _ => true
  | .ok _ => false

/-- The parsed JSON body of a `POST /oauth2/authorize` response:
`flowId`, `flowStatus`, `code`, and `authData.code`. -/
structure AuthorizeResponse where
  flowId : Option String
  flowStatus : Option String
  code : Option String
  authDataCode : Option String
deriving DecidableEq, Repr

/-- The parsed JSON body of a `POST /oauth2/authn` response. -/
structure AuthnResponse where
  flowStatus : Option String
  code : Option String
  authDataCode : Option String
deriving DecidableEq, Repr

/-- A `POST /oauth2/token` response: HTTP status and the `access_token`
field of the parsed JSON body. -/
structure TokenResponse where
  status : Nat
  access_token : Option String
deriving DecidableEq, Repr

/-- The form fields and basic-auth header of the step-1 authorize request. -/
structure AuthorizeRequest where
  client_id : Option String
  response_type : String
  redirect_uri : String
  scope : String
  response_mode : String
  code_challenge : String
  code_challenge_method : String
  basicAuth : String
deriving DecidableEq, Repr

/-- The JSON payload of the step-2 authn request. -/
structure AuthnRequest where
  flowId : String
  authenticatorId : String
  username : Option String
  password : Option String
deriving DecidableEq, Repr

/-- The form fields of the step-3 authorization-code token request. -/
structure TokenRequest where
  grant_type : String
  client_id : Option String
  client_secret : Option String
  code : String
  code_verifier : String
  redirect_uri : String
deriving DecidableEq, Repr

/-- The form fields and basic-auth header of the RFC 8693 exchange request. -/
structure ExchangeRequest where
  grant_type : String
  subject_token : String
  subject_token_type : String
  actor_token : String
  actor_token_type : String
  scope : String
  basicAuth : String
deriving DecidableEq, Repr

/-- One outbound HTTP request of the flow. -/
inductive Request where
  | authorize : AuthorizeRequest → Request
  | authn : AuthnRequest → Request
  | token : TokenRequest → Request
deriving DecidableEq, Repr

/-- The basic-auth header value `b64encode(f"{cid}:{csec}")`. -/
def basicAuthOf (cid csec : Option String) : String :=
  b64encodeStr (pyStrOpt cid ++ ":" ++ pyStrOpt csec)

/-- The authenticator id constant sent in step 2. -/
def authenticatorIdStr : String := "QmFzaWNBdXRoZW50aWNhdG9yOkxPQ0FM"

/-- The step-1 request built by `step1_get_flow_id`. -/
def mkAuthorizeRequest (client_id client_secret : Option String)
    (scopes : List String) (code_challenge : String) (callback : String) :
    AuthorizeRequest :=
  { client_id := client_id
    response_type := "code"
    redirect_uri := callback
    scope := String.intercalate " " scopes
    response_mode := "direct"
    code_challenge := code_challenge
    code_challenge_method := "S256"
    basicAuth := basicAuthOf client_id client_secret }

/-- Response handling of `step1_get_flow_id`: on `flowStatus ==
"SUCCESS_COMPLETED"` with a truthy embedded code, return `(None, code)`;
otherwise return `(flowId, None)` when `flowId` is truthy and raise
`ValueError` when it is not. -/
def step1_result (r : AuthorizeResponse) : Except PyErr (Option String × Option String) :=
  let flowIdCheck : Except PyErr (Option String × Option String) :=
    if pyTruthy r.flowId then .ok (r.flowId, none)
    else .error (.valueError "flowId not found in response")
  if r.flowStatus = some "SUCCESS_COMPLETED" then
    let direct := pyOr r.code r.authDataCode
    if pyTruthy direct then .ok (none, direct) else flowIdCheck
  else flowIdCheck

/-- The step-2 request built by `step2_authenticate_agent`. -/
def mkAuthnRequest (flow_id : String) (agent_id agent_secret : Option String) :
    AuthnRequest :=
  { flowId := flow_id
    authenticatorId := authenticatorIdStr
    username := agent_id
    password := agent_secret }

/-- Response handling of `step2_authenticate_agent`: the code may sit at top
level or under `authData`; its absence raises `ValueError`. -/
def step2_result (r : AuthnResponse) : Except PyErr String :=
  let code := pyOr r.code r.authDataCode
  if pyTruthy code then .ok (code.getD "")
  else .error (.valueError "Authorization code not found in response")

/-- The step-3 request built by `step3_exchange_code_for_token`. -/
def mkTokenRequest (client_id client_secret : Option String)
    (code code_verifier : String) (callback : String) : TokenRequest :=
  { grant_type := "authorization_code"
    client_id := client_id
    client_secret := client_secret
    code := code
    code_verifier := code_verifier
    redirect_uri := callback }

/-- Response handling of `step3_exchange_code_for_token`: a non-200 status
raises `ValueError`; a missing `access_token` raises `TypeError` (the source
slices `access_token[:60]`, which fails on `None`). -/
def step3_result (r : TokenResponse) : Except PyErr String :=
  if r.status ≠ 200 then .error (.valueError "Token exchange failed")
  else
    match r.access_token with
    | none => .error (.typeError "NoneType is not subscriptable")
    | some t => .ok t

/-- `print_jwt_claims` on a raw token: `claims.get('sub')` raises
`AttributeError` whenever the decoded payload is not a dict. -/
def print_jwt_claims_result (token : String) : Except PyErr String :=
  match decode_jwt_payload token with
  | PyValue.obj _ => .ok token
  | _ => .error (.attributeError "object has no attribute get")

/-- The environment of one three-step flow invocation: the random verifier
drawn by `generate_pkce` and the three provider responses. -/
structure FlowEnv where
  verifier : String
  r1 : AuthorizeResponse
  r2 : AuthnResponse
  r3 : TokenResponse

/-- Embedding of `get_actor_token_3step`: runs step 1, runs step 2 only when
no direct code was embedded in the step-1 response, runs step 3 on the
obtained code, then prints the token's claims. Returns the trace of requests
sent together with the result or the first exception raised. -/
def get_actor_token_3step (agent_id agent_secret : Option String)
    (app_client_id app_client_secret : Option String) (scopes : List String)
    (callback : String) (fe : FlowEnv) : List Request × Except PyErr String :=
  let challenge := (generate_pkce fe.verifier).2
  let req1 := mkAuthorizeRequest app_client_id app_client_secret scopes challenge callback
  match step1_result fe.r1 with
  | .error e => ([.authorize req1], .error e)
  | .ok (flow_id, direct_code) =>
    if pyTruthy direct_code then
      let code := direct_code.getD ""
      let req3 := mkTokenRequest app_client_id app_client_secret code fe.verifier callback
      match step3_result fe.r3 with
      | .error e => ([.authorize req1, .token req3], .error e)
      | .ok tok => ([.authorize req1, .token req3], print_jwt_claims_result tok)
    else
      let req2 := mkAuthnRequest (flow_id.getD "") agent_id agent_secret
      match step2_result fe.r2 with
      | .error e => ([.authorize req1, .authn req2], .error e)
      | .ok code =>
        let req3 := mkTokenRequest app_client_id app_client_secret code fe.verifier callback
        match step3_result fe.r3 with
        | .error e => ([.authorize req1, .authn req2, .token req3], .error e)
        | .ok tok => ([.authorize req1, .authn req2, .token req3], print_jwt_claims_result tok)

/-- Embedding of `token_exchange_downscope`: builds the RFC 8693 request under
the token-exchanger application's credentials, then parses the response; a
non-200 status raises `ValueError`, a missing `access_token` raises
`TypeError` inside `print_token` (`len(None)`), and `print_jwt_claims` raises
`AttributeError` when the token's payload is not a dict. -/
def token_exchange_downscope (texId texSecret : Option String)
    (subject_token actor_token : String) (target_scopes : List String)
    (resp : TokenResponse) : ExchangeRequest × Except PyErr String :=
  let req : ExchangeRequest :=
    { grant_type := "urn:ietf:params:oauth:grant-type:token-exchange"
      subject_token := subject_token
      subject_token_type := "urn:ietf:params:oauth:token-type:access_token"
      actor_token := actor_token
      actor_token_type := "urn:ietf:params:oauth:token-type:access_token"
      scope := String.intercalate " " target_scopes
      basicAuth := basicAuthOf texId texSecret }
  let res : Except PyErr String :=
    if resp.status ≠ 200 then .error (.valueError "Token exchange failed")
    else
      match resp.access_token with
      | none => .error (.typeError "object of type NoneType has no len")
      | some t => print_jwt_claims_result t
  (req, res)

/-! ## The orchestration driver `main`. -/

/-- The module-level configuration read from the environment (`os.getenv`);
absent variables are `none`. -/
structure Globals where
  CALLBACK_URL : String
  TOKEN_EXCHANGER_CLIENT_ID : Option String
  TOKEN_EXCHANGER_CLIENT_SECRET : Option String
  ORCHESTRATOR_CLIENT_ID : Option String
  ORCHESTRATOR_CLIENT_SECRET : Option String
  ORCHESTRATOR_AGENT_ID : Option String
  ORCHESTRATOR_AGENT_SECRET : Option String
  HR_AGENT_ID : Option String
  HR_AGENT_SECRET : Option String
  IT_AGENT_ID : Option String
  IT_AGENT_SECRET : Option String
  APPROVAL_AGENT_ID : Option String
  APPROVAL_AGENT_SECRET : Option String
  BOOKING_AGENT_ID : Option String
  BOOKING_AGENT_SECRET : Option String

/-- One worker entry of the `AGENTS` dict. -/
structure AgentCfg where
  agent_id : Option String
  agent_secret : Option String
  scopes : List String
  audience : String
deriving DecidableEq, Repr

/-- The `AGENTS` dict, in its source insertion order. -/
def AGENTS (g : Globals) : List (String × AgentCfg) :=
  [("hr_agent",
    { agent_id := g.HR_AGENT_ID, agent_secret := g.HR_AGENT_SECRET,
      scopes := ["hr:read", "hr:write"], audience := "onboarding-api" }),
   ("it_agent",
    { agent_id := g.IT_AGENT_ID, agent_secret := g.IT_AGENT_SECRET,
      scopes := ["it:read", "it:write"], audience := "onboarding-api" }),
   ("approval_agent",
    { agent_id := g.APPROVAL_AGENT_ID, agent_secret := g.APPROVAL_AGENT_SECRET,
      scopes := ["approval:read", "approval:write"], audience := "onboarding-api" }),
   ("booking_agent",
    { agent_id := g.BOOKING_AGENT_ID, agent_secret := g.BOOKING_AGENT_SECRET,
      scopes := ["booking:read", "booking:write"], audience := "onboarding-api" })]

/-- The external nondeterminism of one driver run: the orchestrator's flow
environment, each worker's flow environment, and each worker's exchange
response. -/
structure DriverEnv where
  orch : FlowEnv
  worker : String → FlowEnv
  exch : String → TokenResponse

deriving instance DecidableEq for Except

/-- An observable event of a driver run. -/
inductive DriverEvent where
  | orchFlow : List Request → Except PyErr String → DriverEvent
  | skip : String → DriverEvent
  | workerFlow : String → List Request → Except PyErr String → DriverEvent
  | exchange : String → ExchangeRequest → Except PyErr String → DriverEvent
deriving DecidableEq, Repr

/-- The agent key an event belongs to (`none` for the orchestrator phase). -/
def eventKey : DriverEvent → Option String
  | .orchFlow _ _ => none
  | .skip k => some k
  | .workerFlow k _ _ => some k
  | .exchange k _ _ => some k

/-- The body of `main`'s worker loop for one `AGENTS` entry: skip on missing
credentials; otherwise run the worker's three-step flow and, on success, the
downscoping exchange. Exceptions are caught per worker (`continue`). -/
def processWorker (g : Globals) (env : DriverEnv) (orchToken : String)
    (kv : String × AgentCfg) : List DriverEvent :=
  let key := kv.1
  let cfg := kv.2
  if !(pyTruthy cfg.agent_id) || !(pyTruthy cfg.agent_secret) then
    [.skip key]
  else
    let fr := get_actor_token_3step cfg.agent_id cfg.agent_secret
      g.TOKEN_EXCHANGER_CLIENT_ID g.TOKEN_EXCHANGER_CLIENT_SECRET
      ["openid"] g.CALLBACK_URL (env.worker key)
    match fr.2 with
    | .error e => [.workerFlow key fr.1 (.error e)]
    | .ok actorTok =>
      let ex := token_exchange_downscope g.TOKEN_EXCHANGER_CLIENT_ID
        g.TOKEN_EXCHANGER_CLIENT_SECRET orchToken actorTok cfg.scopes (env.exch key)
      [.workerFlow key fr.1 (.ok actorTok), .exchange key ex.1 ex.2]

/-- Phase 1 of `main`: acquiring the orchestrator's actor token through the
orchestrator application. -/
def orchFlowRun (g : Globals) (env : DriverEnv) : List Request × Except PyErr String :=
  get_actor_token_3step g.ORCHESTRATOR_AGENT_ID g.ORCHESTRATOR_AGENT_SECRET
    g.ORCHESTRATOR_CLIENT_ID g.ORCHESTRATOR_CLIENT_SECRET
    ["openid"] g.CALLBACK_URL env.orch

/-- Embedding of `main`: a failed orchestrator acquisition aborts the run
before any worker; otherwise each `AGENTS` entry is processed in order with
per-worker exception isolation. -/
def mainDriver (g : Globals) (env : DriverEnv) : List DriverEvent :=
  match (orchFlowRun g env).2 with
  | .error e => [.orchFlow (orchFlowRun g env).1 (.error e)]
  | .ok orchToken =>
    .orchFlow (orchFlowRun g env).1 (.ok orchToken) ::
      (AGENTS g).flatMap (processWorker g env orchToken)

/-! ## Auxiliary definitions used by the claims. -/

/-- Lexicographic comparison of character sequences by code point, as Python
compares strings. -/
def charsLe : List Char → List Char → Bool
  | [], _ => true
  | _ :: _, [] => false
  | a :: as, b :: bs =>
    if a.toNat < b.toNat then true
    else if b.toNat < a.toNat then false
    else charsLe as bs

/-- String comparison by code points. -/
def strLe (a b : String) : Bool := charsLe a.data b.data

/-- Insert a string into a sorted list (ascending). -/
def insertSorted (s : String) : List String → List String
  | [] => [s]
  | t :: ts => if strLe s t then s :: t :: ts else t :: insertSorted s ts

/-- Insertion sort on strings, modelling Python's `sorted`. -/
def sortStrings : List String → List String
  | [] => []
  | s :: ss => insertSorted s (sortStrings ss)

/-- All strings rendered into the step-1 request (form values and the
basic-auth header). -/
def authorizeValues (q : AuthorizeRequest) : List String :=
  [pyStrOpt q.client_id, q.response_type, q.redirect_uri, q.scope,
   q.response_mode, q.code_challenge, q.code_challenge_method, q.basicAuth]

/-- All strings rendered into the step-2 request payload. -/
def authnValues (q : AuthnRequest) : List String :=
  [q.flowId, q.authenticatorId, pyStrOpt q.username, pyStrOpt q.password]

/-- All strings rendered into the step-3 request. -/
def tokenValues (q : TokenRequest) : List String :=
  [q.grant_type, pyStrOpt q.client_id, pyStrOpt q.client_secret, q.code,
   q.code_verifier, q.redirect_uri]

/-- The step-3 request values other than the `code_verifier` field. -/
def tokenValuesNoVerifier (q : TokenRequest) : List String :=
  [q.grant_type, pyStrOpt q.client_id, pyStrOpt q.client_secret, q.code,
   q.redirect_uri]

/-- Every string that can appear in a flow's requests other than the PKCE
verifier and challenge: credentials, fixed protocol constants, the scope
string, the basic-auth header, and any authorization code or flow id taken
from the provider's responses. -/
def flowAmbient (agent_id agent_secret app_client_id app_client_secret : Option String)
    (scopes : List String) (callback : String)
    (r1 : AuthorizeResponse) (r2 : AuthnResponse) : List String :=
  [pyStrOpt agent_id, pyStrOpt agent_secret, pyStrOpt app_client_id,
   pyStrOpt app_client_secret, callback, "code", "direct", "S256",
   "authorization_code", authenticatorIdStr, String.intercalate " " scopes,
   basicAuthOf app_client_id app_client_secret,
   pyStrOpt r1.flowId, pyStrOpt r1.code, pyStrOpt r1.authDataCode,
   pyStrOpt r2.code, pyStrOpt r2.authDataCode, ""]

/-! ## Concrete fixtures for witnesses. -/

/-- An authorize response carrying a flow id and pending status. -/
def okAuthorize : AuthorizeResponse := ⟨some "flow-1", some "INCOMPLETE", none, none⟩

/-- An authorize response that short-circuits with an embedded code. -/
def directAuthorize : AuthorizeResponse :=
  ⟨none, some "SUCCESS_COMPLETED", some "direct-code", none⟩

/-- An authn response carrying an authorization code. -/
def okAuthn : AuthnResponse := ⟨some "SUCCESS_COMPLETED", some "code-1", none⟩

/-- A successful token response. -/
def okToken : TokenResponse := ⟨200, some "tok"⟩

/-- A failed token response. -/
def badToken : TokenResponse := ⟨500, none⟩

/-- A flow environment in which every step succeeds. -/
def okFlowEnv : FlowEnv := ⟨"v", okAuthorize, okAuthn, okToken⟩

/-- A flow environment whose token step fails. -/
def badFlowEnv : FlowEnv := ⟨"v", okAuthorize, okAuthn, badToken⟩

/-- A configuration with hr and it workers fully credentialed, the approval
worker's variables absent, and the booking worker's secret empty. -/
def testGlobals : Globals :=
  { CALLBACK_URL := "http://localhost:8000/callback"
    TOKEN_EXCHANGER_CLIENT_ID := some "tex"
    TOKEN_EXCHANGER_CLIENT_SECRET := some "texsec"
    ORCHESTRATOR_CLIENT_ID := some "orc"
    ORCHESTRATOR_CLIENT_SECRET := some "orcsec"
    ORCHESTRATOR_AGENT_ID := some "orch-agent"
    ORCHESTRATOR_AGENT_SECRET := some "orch-secret"
    HR_AGENT_ID := some "hr-id", HR_AGENT_SECRET := some "hr-sec"
    IT_AGENT_ID := some "it-id", IT_AGENT_SECRET := some "it-sec"
    APPROVAL_AGENT_ID := none, APPROVAL_AGENT_SECRET := none
    BOOKING_AGENT_ID := some "bk-id", BOOKING_AGENT_SECRET := some "" }

/-- A driver environment in which every flow succeeds. -/
def testEnv : DriverEnv := ⟨okFlowEnv, fun _ => okFlowEnv, fun _ => okToken⟩

/-- The it worker's configuration under `testGlobals`. -/
def itCfg : AgentCfg :=
  { agent_id := some "it-id"
    agent_secret := some "it-sec"
    scopes := ["it:read", "it:write"]
    audience := "onboarding-api" }

/-- The approval worker's configuration under `testGlobals`: both environment
variables absent. -/
def approvalCfg : AgentCfg :=
  { agent_id := none
    agent_secret := none
    scopes := ["approval:read", "approval:write"]
    audience := "onboarding-api" }

/-- A driver environment in which the hr worker's token step fails and all
other flows succeed. -/
def hrFailEnv : DriverEnv :=
  ⟨okFlowEnv, fun k => if k == "hr_agent" then badFlowEnv else okFlowEnv,
   fun _ => okToken⟩

/-- A driver environment in which the orchestrator's own token step fails. -/
def orchFailEnv : DriverEnv := ⟨badFlowEnv, fun _ => okFlowEnv, fun _ => okToken⟩

/-- A flow environment whose authorize step short-circuits with a direct
code. -/
def directFlowEnv : FlowEnv := ⟨"v", directAuthorize, okAuthn, okToken⟩

/-! ## Helper lemmas: stripping base64 padding. -/

/-- No character of the URL-safe alphabet is `=`. -/
theorem urlAlphabet_ne_eq : ∀ c ∈ urlAlphabet, c ≠ '=' := by decide

/-- A base64 digit is never the padding character when the alphabet avoids
it. -/
theorem b64digit_ne_eq (alpha : List Char) (halpha : ∀ c ∈ alpha, c ≠ '=')
    (n : Nat) : b64digit alpha n ≠ '=' := by
  unfold b64digit
  rcases Nat.lt_or_ge (n % 64) alpha.length with h | h
  · rw [List.getD_eq_getElem alpha 'A' h]
    exact halpha _ (List.getElem_mem h)
  · rw [List.getD_eq_default alpha 'A' h]
    decide

/-- Every character produced by `b64body` is a digit of the alphabet, hence
not `=`. -/
theorem b64body_ne_eq (alpha : List Char) (halpha : ∀ c ∈ alpha, c ≠ '=') :
    ∀ bs : List Nat, ∀ c ∈ b64body alpha bs, c ≠ '='
  | a :: b :: c :: rest => by
    intro x hx
    simp only [b64body, List.mem_cons] at hx
    rcases hx with h | h | h | h | h
    all_goals first
      | (subst h; exact b64digit_ne_eq alpha halpha _)
      | exact b64body_ne_eq alpha halpha rest x h
  | [a, b] => by
    intro x hx
    simp only [b64body, List.mem_cons, List.not_mem_nil, or_false] at hx
    rcases hx with h | h | h <;> (subst h; exact b64digit_ne_eq alpha halpha _)
  | [a] => by
    intro x hx
    simp only [b64body, List.mem_cons, List.not_mem_nil, or_false] at hx
    rcases hx with h | h <;> (subst h; exact b64digit_ne_eq alpha halpha _)
  | [] => by intro x hx; simp [b64body] at hx

/-- Dropping `=` from the front of a run of `=` continues past the run. -/
theorem dropWhile_replicate_eq (k : Nat) (ys : List Char) :
    (List.replicate k '=' ++ ys).dropWhile (· == '=') = ys.dropWhile (· == '=') := by
  induction k with
  | zero => simp
  | succ n ih => simp [List.replicate_succ, List.dropWhile, ih]

/-- A list with no `=` is untouched by dropping leading `=`. -/
theorem dropWhile_eq_of_no_eq (ys : List Char) (h : ∀ c ∈ ys, c ≠ '=') :
    ys.dropWhile (· == '=') = ys := by
  cases ys with
  | nil => rfl
  | cons c rest =>
    have : (c == '=') = false := by
      simpa using h c (List.mem_cons_self c rest)
    simp [List.dropWhile, this]

/-- `rstrip(b'=')` of a padded base64 body returns exactly the body. -/
theorem rstripEq_append_padding (xs : List Char) (k : Nat)
    (h : ∀ c ∈ xs, c ≠ '=') :
    rstripEq (xs ++ List.replicate k '=') = xs := by
  unfold rstripEq
  rw [List.reverse_append, List.reverse_replicate, dropWhile_replicate_eq,
    dropWhile_eq_of_no_eq, List.reverse_reverse]
  intro c hc
  exact h c (List.mem_reverse.mp hc)

/-- C3: for every verifier the PKCE generator returns, the challenge equals
the unpadded base64url encoding of the SHA-256 digest of the verifier's ASCII
bytes, the stored verifier is returned unchanged, and re-deriving the
challenge from the stored verifier reproduces the identical challenge. -/
theorem pkce_challenge_correct (verifier : String) :
    (generate_pkce verifier).2 = base64urlNoPad (sha256 (asciiBytes verifier)) ∧
    (generate_pkce verifier).1 = verifier ∧
    (generate_pkce ((generate_pkce verifier).1)).2 = (generate_pkce verifier).2 := by
  refine ⟨?_, rfl, rfl⟩
  unfold generate_pkce base64urlNoPad b64encodeChars b64padding
  simp only []
  rw [rstripEq_append_padding]
  exact fun c hc => b64body_ne_eq urlAlphabet urlAlphabet_ne_eq _ c hc

/-- C4: when the step-1 response has the terminal status with a truthy
embedded code, the flow's request trace contains no authentication request,
and the token request it sends consumes exactly the embedded code. -/
theorem direct_code_skips_authn
    (agent_id agent_secret app_client_id app_client_secret : Option String)
    (scopes : List String) (callback : String) (fe : FlowEnv)
    (hstatus : fe.r1.flowStatus = some "SUCCESS_COMPLETED")
    (hcode : pyTruthy (pyOr fe.r1.code fe.r1.authDataCode) = true) :
    (∀ q : AuthnRequest, Request.authn q ∉
      (get_actor_token_3step agent_id agent_secret app_client_id
        app_client_secret scopes callback fe).1) ∧
    (∃ q3 : TokenRequest, Request.token q3 ∈
      (get_actor_token_3step agent_id agent_secret app_client_id
        app_client_secret scopes callback fe).1 ∧
      q3.code = (pyOr fe.r1.code fe.r1.authDataCode).getD "") := by
  have h1 : step1_result fe.r1 = .ok (none, pyOr fe.r1.code fe.r1.authDataCode) := by
    unfold step1_result
    rw [hstatus]
    simp [hcode]
  unfold get_actor_token_3step
  rw [h1]
  simp only [hcode, if_true]
  cases step3_result fe.r3 with
  | error e =>
    exact ⟨fun q => by simp,
      ⟨mkTokenRequest app_client_id app_client_secret
        ((pyOr fe.r1.code fe.r1.authDataCode).getD "") fe.verifier callback,
       by simp, rfl⟩⟩
  | ok tok =>
    exact ⟨fun q => by simp,
      ⟨mkTokenRequest app_client_id app_client_secret
        ((pyOr fe.r1.code fe.r1.authDataCode).getD "") fe.verifier callback,
       by simp, rfl⟩⟩

/-- Witness for C4 at a concrete short-circuiting flow environment. -/
theorem direct_code_skips_authn_witness :
    directFlowEnv.r1.flowStatus = some "SUCCESS_COMPLETED" ∧
    pyTruthy (pyOr directFlowEnv.r1.code directFlowEnv.r1.authDataCode) = true ∧
    ((∀ q : AuthnRequest, Request.authn q ∉
      (get_actor_token_3step (some "a") (some "s") (some "c") (some "cs")
        ["openid"] "cb" directFlowEnv).1) ∧
    (∃ q3 : TokenRequest, Request.token q3 ∈
      (get_actor_token_3step (some "a") (some "s") (some "c") (some "cs")
        ["openid"] "cb" directFlowEnv).1 ∧
      q3.code = (pyOr directFlowEnv.r1.code directFlowEnv.r1.authDataCode).getD "")) :=
  ⟨rfl, by decide,
    direct_code_skips_authn (some "a") (some "s") (some "c") (some "cs")
      ["openid"] "cb" directFlowEnv rfl (by decide)⟩

/-! ## Origin lemmas for driver events. -/

/-- Every event emitted for a worker carries that worker's agent key. -/
theorem processWorker_eventKey (g : Globals) (env : DriverEnv)
    (orchToken : String) (kv : String × AgentCfg) :
    ∀ ev ∈ processWorker g env orchToken kv, eventKey ev = some kv.1 := by
  intro ev hev
  simp only [processWorker] at hev
  split at hev
  · simp only [List.mem_singleton] at hev
    subst hev
    rfl
  · split at hev
    · simp only [List.mem_singleton] at hev
      subst hev
      rfl
    · simp only [List.mem_cons, List.not_mem_nil, or_false] at hev
      rcases hev with hev | hev <;> (subst hev; rfl)

/-- An exchange event of a worker's processing fixes the request: its scope is
the worker's configured scopes joined by spaces, its subject token is the
driver's orchestrator token, and its actor token is the one produced by the
worker's own flow, recorded in the accompanying flow event. -/
theorem exchange_mem_processWorker (g : Globals) (env : DriverEnv)
    (orchToken : String) (kv : String × AgentCfg) (key : String)
    (req : ExchangeRequest) (res : Except PyErr String)
    (h : DriverEvent.exchange key req res ∈ processWorker g env orchToken kv) :
    key = kv.1 ∧
    req.scope = String.intercalate " " kv.2.scopes ∧
    req.subject_token = orchToken ∧
    req.basicAuth = basicAuthOf g.TOKEN_EXCHANGER_CLIENT_ID g.TOKEN_EXCHANGER_CLIENT_SECRET ∧
    ∃ tr, DriverEvent.workerFlow kv.1 tr (.ok req.actor_token) ∈
      processWorker g env orchToken kv := by
  simp only [processWorker] at h ⊢
  split at h
  next => simp at h
  next hcond =>
    split at h
    next => simp at h
    next tok heq =>
      simp only [List.mem_cons, List.not_mem_nil, or_false] at h
      rcases h with h | h
      · exact absurd h (by simp)
      · rw [DriverEvent.exchange.injEq] at h
        obtain ⟨hkey, hreq, _⟩ := h
        subst hkey hreq
        refine ⟨rfl, rfl, rfl, rfl,
          (get_actor_token_3step kv.2.agent_id kv.2.agent_secret
            g.TOKEN_EXCHANGER_CLIENT_ID g.TOKEN_EXCHANGER_CLIENT_SECRET
            ["openid"] g.CALLBACK_URL (env.worker kv.1)).1, ?_⟩
        rw [if_neg hcond]
        exact List.mem_cons_self _ _

/-- An exchange event in a driver run originates from a worker entry of
`AGENTS`, processed under the successfully acquired orchestrator token. -/
theorem exchange_mem_mainDriver (g : Globals) (env : DriverEnv) (key : String)
    (req : ExchangeRequest) (res : Except PyErr String)
    (h : DriverEvent.exchange key req res ∈ mainDriver g env) :
    ∃ T, (orchFlowRun g env).2 = .ok T ∧
      ∃ kv ∈ AGENTS g, DriverEvent.exchange key req res ∈ processWorker g env T kv := by
  unfold mainDriver at h
  split at h
  · simp at h
  · next T heq =>
    simp only [List.mem_cons] at h
    rcases h with h | h
    · exact absurd h (by simp)
    · exact ⟨T, heq, List.mem_flatMap.mp h⟩

/-- The concrete hr exchange request arising in the `testEnv` run. -/
def hrExchangeReq : ExchangeRequest :=
  (token_exchange_downscope (some "tex") (some "texsec") "tok" "tok"
    ["hr:read", "hr:write"] okToken).1

/-- C1: every exchange request the driver sends for a worker carries exactly
the space-join of that worker's configured scopes, which coincides with the
sorted join, and the requested scopes are a permutation of (hence never
broader than) the configured scope set. -/
theorem exchange_scope_equals_sorted_config (g : Globals) (env : DriverEnv)
    (key : String) (req : ExchangeRequest) (res : Except PyErr String)
    (h : DriverEvent.exchange key req res ∈ mainDriver g env) :
    ∃ cfg : AgentCfg, (key, cfg) ∈ AGENTS g ∧
      req.scope = String.intercalate " " cfg.scopes ∧
      req.scope = String.intercalate " " (sortStrings cfg.scopes) ∧
      (sortStrings cfg.scopes).Perm cfg.scopes := by
  obtain ⟨T, -, kv, hkv, hmem⟩ := exchange_mem_mainDriver g env key req res h
  obtain ⟨hkey, hscope, -, -, -⟩ :=
    exchange_mem_processWorker g env T kv key req res hmem
  subst hkey
  refine ⟨kv.2, ?_, hscope, ?_, ?_⟩
  · exact (Prod.mk.eta (p := kv)) ▸ hkv
  · simp only [AGENTS, List.mem_cons, List.not_mem_nil, or_false] at hkv
    rw [hscope]
    rcases hkv with hkv | hkv | hkv | hkv <;> rw [hkv] <;>
      first
      | exact (by decide : String.intercalate " " ["hr:read", "hr:write"] =
          String.intercalate " " (sortStrings ["hr:read", "hr:write"]))
      | exact (by decide : String.intercalate " " ["it:read", "it:write"] =
          String.intercalate " " (sortStrings ["it:read", "it:write"]))
      | exact (by decide : String.intercalate " " ["approval:read", "approval:write"] =
          String.intercalate " " (sortStrings ["approval:read", "approval:write"]))
      | exact (by decide : String.intercalate " " ["booking:read", "booking:write"] =
          String.intercalate " " (sortStrings ["booking:read", "booking:write"]))
  · simp only [AGENTS, List.mem_cons, List.not_mem_nil, or_false] at hkv
    rcases hkv with hkv | hkv | hkv | hkv <;> rw [hkv] <;>
      first
      | exact (by decide : (sortStrings ["hr:read", "hr:write"]).Perm
          ["hr:read", "hr:write"])
      | exact (by decide : (sortStrings ["it:read", "it:write"]).Perm
          ["it:read", "it:write"])
      | exact (by decide : (sortStrings ["approval:read", "approval:write"]).Perm
          ["approval:read", "approval:write"])
      | exact (by decide : (sortStrings ["booking:read", "booking:write"]).Perm
          ["booking:read", "booking:write"])

/-- Witness for C1: the hr worker's exchange in the concrete successful run. -/
theorem exchange_scope_equals_sorted_config_witness :
    (DriverEvent.exchange "hr_agent" hrExchangeReq (Except.ok "tok") ∈
      mainDriver testGlobals testEnv) ∧
    (∃ cfg : AgentCfg, ("hr_agent", cfg) ∈ AGENTS testGlobals ∧
      hrExchangeReq.scope = String.intercalate " " cfg.scopes ∧
      hrExchangeReq.scope = String.intercalate " " (sortStrings cfg.scopes) ∧
      (sortStrings cfg.scopes).Perm cfg.scopes) :=
  ⟨by decide,
   exchange_scope_equals_sorted_config testGlobals testEnv "hr_agent"
     hrExchangeReq (Except.ok "tok") (by decide)⟩

/-- C2: every exchange in a driver run happens after the orchestrator's actor
token was acquired once, at the head of the run; its subject token is exactly
that orchestrator token, its actor token is the one acquired by that worker's
own flow (recorded in the worker's flow event), and its scopes are the
worker's configured scopes. -/
theorem exchange_subject_is_orchestrator (g : Globals) (env : DriverEnv)
    (key : String) (req : ExchangeRequest) (res : Except PyErr String)
    (h : DriverEvent.exchange key req res ∈ mainDriver g env) :
    ∃ T, (orchFlowRun g env).2 = .ok T ∧
      mainDriver g env = DriverEvent.orchFlow (orchFlowRun g env).1 (.ok T) ::
        (AGENTS g).flatMap (processWorker g env T) ∧
      req.subject_token = T ∧
      (∃ cfg, (key, cfg) ∈ AGENTS g ∧
        req.scope = String.intercalate " " cfg.scopes) ∧
      (∃ tr, DriverEvent.workerFlow key tr (.ok req.actor_token) ∈ mainDriver g env) := by
  obtain ⟨T, hT, kv, hkv, hmem⟩ := exchange_mem_mainDriver g env key req res h
  obtain ⟨hkey, hscope, hsubj, -, tr, htr⟩ :=
    exchange_mem_processWorker g env T kv key req res hmem
  subst hkey
  have hdrv : mainDriver g env = DriverEvent.orchFlow (orchFlowRun g env).1 (.ok T) ::
      (AGENTS g).flatMap (processWorker g env T) := by
    unfold mainDriver
    rw [hT]
  refine ⟨T, hT, hdrv, hsubj, ⟨kv.2, (Prod.mk.eta (p := kv)) ▸ hkv, hscope⟩, tr, ?_⟩
  rw [hdrv]
  exact List.mem_cons_of_mem _ (List.mem_flatMap.mpr ⟨kv, hkv, htr⟩)

/-- Witness for C2 at the hr worker's exchange in the concrete run. -/
theorem exchange_subject_is_orchestrator_witness :
    (DriverEvent.exchange "hr_agent" hrExchangeReq (Except.ok "tok") ∈
      mainDriver testGlobals testEnv) ∧
    (∃ T, (orchFlowRun testGlobals testEnv).2 = .ok T ∧
      mainDriver testGlobals testEnv =
        DriverEvent.orchFlow (orchFlowRun testGlobals testEnv).1 (.ok T) ::
          (AGENTS testGlobals).flatMap (processWorker testGlobals testEnv T) ∧
      hrExchangeReq.subject_token = T ∧
      (∃ cfg, ("hr_agent", cfg) ∈ AGENTS testGlobals ∧
        hrExchangeReq.scope = String.intercalate " " cfg.scopes) ∧
      (∃ tr, DriverEvent.workerFlow "hr_agent" tr (.ok hrExchangeReq.actor_token) ∈
        mainDriver testGlobals testEnv)) :=
  ⟨by decide,
   exchange_subject_is_orchestrator testGlobals testEnv "hr_agent"
     hrExchangeReq (Except.ok "tok") (by decide)⟩

/-- Processing a worker always emits at least one event keyed to it. -/
theorem processWorker_exists_event (g : Globals) (env : DriverEnv)
    (orchToken : String) (kv : String × AgentCfg) :
    ∃ ev ∈ processWorker g env orchToken kv, eventKey ev = some kv.1 := by
  simp only [processWorker]
  split
  · exact ⟨.skip kv.1, by simp, rfl⟩
  · split
    next e heq =>
      exact ⟨.workerFlow kv.1 (get_actor_token_3step kv.2.agent_id
        kv.2.agent_secret g.TOKEN_EXCHANGER_CLIENT_ID
        g.TOKEN_EXCHANGER_CLIENT_SECRET ["openid"] g.CALLBACK_URL
        (env.worker kv.1)).1 (.error e), by simp, rfl⟩
    next tok heq =>
      exact ⟨.workerFlow kv.1 (get_actor_token_3step kv.2.agent_id
        kv.2.agent_secret g.TOKEN_EXCHANGER_CLIENT_ID
        g.TOKEN_EXCHANGER_CLIENT_SECRET ["openid"] g.CALLBACK_URL
        (env.worker kv.1)).1 (.ok tok), by simp, rfl⟩

/-- The `AGENTS` dict binds each key to a unique configuration. -/
theorem AGENTS_key_unique (g : Globals) (key : String) (c1 c2 : AgentCfg)
    (h1 : (key, c1) ∈ AGENTS g) (h2 : (key, c2) ∈ AGENTS g) : c1 = c2 := by
  simp only [AGENTS, List.mem_cons, List.not_mem_nil, or_false,
    Prod.mk.injEq] at h1 h2
  rcases h1 with ⟨hk1, hc1⟩ | ⟨hk1, hc1⟩ | ⟨hk1, hc1⟩ | ⟨hk1, hc1⟩ <;>
    rcases h2 with ⟨hk2, hc2⟩ | ⟨hk2, hc2⟩ | ⟨hk2, hc2⟩ | ⟨hk2, hc2⟩ <;>
    subst hk1 <;>
    first
    | exact hc1.trans hc2.symm
    | exact absurd hk2 (by decide)

/-- Does this event record a failure for worker `k`? -/
def eventIsFailureOf (k : String) : DriverEvent → Bool
  | .workerFlow j _ (.error _) => j == k
  | .exchange j _ (.error _) => j == k
  | _ => false

/-- Does this event record a successful exchange for worker `k`? -/
def eventIsExchangeOk (k : String) : DriverEvent → Bool
  | .exchange j _ (.ok _) => j == k
  | _ => false

/-- C8: a failed orchestrator acquisition aborts the run before any worker is
processed, while under a successful acquisition every configured worker
receives at least one driver event of its own — regardless of any other
worker's failures. -/
theorem per_worker_failure_isolation (g : Globals) (env : DriverEnv) :
    (∀ e, (orchFlowRun g env).2 = .error e →
      mainDriver g env = [DriverEvent.orchFlow (orchFlowRun g env).1 (.error e)]) ∧
    (∀ T, (orchFlowRun g env).2 = .ok T →
      ∀ kv ∈ AGENTS g, ∃ ev ∈ mainDriver g env, eventKey ev = some kv.1) := by
  constructor
  · intro e he
    unfold mainDriver
    rw [he]
  · intro T hT kv hkv
    obtain ⟨ev, hev, hkey⟩ := processWorker_exists_event g env T kv
    refine ⟨ev, ?_, hkey⟩
    unfold mainDriver
    rw [hT]
    exact List.mem_cons_of_mem _ (List.mem_flatMap.mpr ⟨kv, hkv, hev⟩)

/-- Witness for C8: in a run where the hr worker's token step fails, the hr
failure is recorded, the it worker still completes its exchange, and the
theorem yields an event for the it worker. -/
theorem per_worker_failure_isolation_witness :
    (orchFlowRun testGlobals hrFailEnv).2 = .ok "tok" ∧
    (("it_agent", itCfg) ∈ AGENTS testGlobals) ∧
    (mainDriver testGlobals hrFailEnv).any (eventIsFailureOf "hr_agent") = true ∧
    (mainDriver testGlobals hrFailEnv).any (eventIsExchangeOk "it_agent") = true ∧
    (∃ ev ∈ mainDriver testGlobals hrFailEnv, eventKey ev = some "it_agent") :=
  ⟨by decide, by decide, by decide, by decide,
   (per_worker_failure_isolation testGlobals hrFailEnv).2 "tok" (by decide)
     ("it_agent", itCfg) (by decide)⟩

/-- C10: a configured worker with a falsy agent id or secret is skipped: its
processing emits exactly the skip event, the run's trace contains no flow and
no exchange event for it (hence no network request on its behalf), the skip is
not a failure event, and the remaining workers are still processed. -/
theorem missing_credentials_skip (g : Globals) (env : DriverEnv)
    (orchToken : String) (key : String) (cfg : AgentCfg)
    (hmem : (key, cfg) ∈ AGENTS g)
    (hmiss : pyTruthy cfg.agent_id = false ∨ pyTruthy cfg.agent_secret = false) :
    processWorker g env orchToken (key, cfg) = [DriverEvent.skip key] ∧
    eventIsFailureOf key (DriverEvent.skip key) = false ∧
    (∀ T, (orchFlowRun g env).2 = .ok T →
      DriverEvent.skip key ∈ mainDriver g env ∧
      (∀ tr res, DriverEvent.workerFlow key tr res ∉ mainDriver g env) ∧
      (∀ q res, DriverEvent.exchange key q res ∉ mainDriver g env)) := by
  have hcond : (!pyTruthy cfg.agent_id || !pyTruthy cfg.agent_secret) = true := by
    rcases hmiss with hmiss | hmiss <;> simp [hmiss]
  have hskip : ∀ tok, processWorker g env tok (key, cfg) = [DriverEvent.skip key] := by
    intro tok
    unfold processWorker
    rw [if_pos hcond]
  refine ⟨hskip orchToken, rfl, ?_⟩
  intro T hT
  have hdrv : mainDriver g env = DriverEvent.orchFlow (orchFlowRun g env).1 (.ok T) ::
      (AGENTS g).flatMap (processWorker g env T) := by
    unfold mainDriver
    rw [hT]
  refine ⟨?_, ?_, ?_⟩
  · rw [hdrv]
    refine List.mem_cons_of_mem _ (List.mem_flatMap.mpr ⟨(key, cfg), hmem, ?_⟩)
    rw [hskip T]
    exact List.mem_singleton.mpr rfl
  · intro tr res hcontra
    rw [hdrv] at hcontra
    rcases List.mem_cons.mp hcontra with hcontra | hcontra
    · exact DriverEvent.noConfusion hcontra
    · obtain ⟨kv', hkv', hev⟩ := List.mem_flatMap.mp hcontra
      have hkeq := processWorker_eventKey g env T kv' _ hev
      simp only [eventKey, Option.some.injEq] at hkeq
      have hkv'' : kv' = (key, kv'.2) := by
        rw [hkeq]
      rw [hkv''] at hkv' hev
      have hcfg : kv'.2 = cfg := AGENTS_key_unique g key kv'.2 cfg hkv' hmem
      rw [hcfg, hskip T] at hev
      simp at hev
  · intro q res hcontra
    rw [hdrv] at hcontra
    rcases List.mem_cons.mp hcontra with hcontra | hcontra
    · exact DriverEvent.noConfusion hcontra
    · obtain ⟨kv', hkv', hev⟩ := List.mem_flatMap.mp hcontra
      have hkeq := processWorker_eventKey g env T kv' _ hev
      simp only [eventKey, Option.some.injEq] at hkeq
      have hkv'' : kv' = (key, kv'.2) := by
        rw [hkeq]
      rw [hkv''] at hkv' hev
      have hcfg : kv'.2 = cfg := AGENTS_key_unique g key kv'.2 cfg hkv' hmem
      rw [hcfg, hskip T] at hev
      simp at hev

/-- Witness for C10: the approval worker, whose environment variables are
absent in the concrete configuration, is skipped in the successful run. -/
theorem missing_credentials_skip_witness :
    (("approval_agent", approvalCfg) ∈ AGENTS testGlobals) ∧
    pyTruthy (none : Option String) = false ∧
    (orchFlowRun testGlobals testEnv).2 = .ok "tok" ∧
    (processWorker testGlobals testEnv "tok"
      ("approval_agent", approvalCfg) = [DriverEvent.skip "approval_agent"] ∧
     eventIsFailureOf "approval_agent" (DriverEvent.skip "approval_agent") = false ∧
     (DriverEvent.skip "approval_agent" ∈ mainDriver testGlobals testEnv ∧
      (∀ tr res, DriverEvent.workerFlow "approval_agent" tr res ∉
        mainDriver testGlobals testEnv) ∧
      (∀ q res, DriverEvent.exchange "approval_agent" q res ∉
        mainDriver testGlobals testEnv))) :=
  ⟨by decide, by decide, by decide,
   by
    obtain ⟨h1, h2, h3⟩ := missing_credentials_skip testGlobals testEnv "tok"
      "approval_agent" approvalCfg (by decide) (Or.inl (by decide))
    exact ⟨h1, h2, h3 "tok" (by decide)⟩⟩

/-- Every authorize request a flow sends is the step-1 request built from the
application credentials, the flow's scopes, the PKCE challenge and the
redirect target. -/
theorem authorize_req_of_flow (ai as ci cs : Option String)
    (scopes : List String) (cb : String) (fe : FlowEnv) :
    ∀ q, Request.authorize q ∈ (get_actor_token_3step ai as ci cs scopes cb fe).1 →
      q = mkAuthorizeRequest ci cs scopes (generate_pkce fe.verifier).2 cb := by
  intro q hq
  unfold get_actor_token_3step at hq
  split at hq
  · simp at hq
    exact hq
  · split at hq
    · split at hq <;> (simp at hq; exact hq)
    · split at hq
      · simp at hq
        exact hq
      · split at hq <;> (simp at hq; exact hq)

/-- The orchestrator-phase event of a run carries that phase's request trace
and result. -/
theorem orchFlow_mem_mainDriver (g : Globals) (env : DriverEnv)
    (tr : List Request) (res : Except PyErr String)
    (h : DriverEvent.orchFlow tr res ∈ mainDriver g env) :
    tr = (orchFlowRun g env).1 ∧ res = (orchFlowRun g env).2 := by
  unfold mainDriver at h
  split at h
  next e heq =>
    simp only [List.mem_singleton] at h
    rw [DriverEvent.orchFlow.injEq] at h
    exact ⟨h.1, h.2.trans heq.symm⟩
  next T heq =>
    rcases List.mem_cons.mp h with h | h
    · rw [DriverEvent.orchFlow.injEq] at h
      exact ⟨h.1, h.2.trans heq.symm⟩
    · obtain ⟨kv, hkv, hev⟩ := List.mem_flatMap.mp h
      have hk := processWorker_eventKey g env T kv _ hev
      simp [eventKey] at hk

/-- A worker flow event originates from a credentialed `AGENTS` entry and
carries the trace of that worker's three-step flow, run through the
token-exchanger application with the fixed `openid` scope. -/
theorem workerFlow_mem_mainDriver (g : Globals) (env : DriverEnv)
    (key : String) (tr : List Request) (res : Except PyErr String)
    (h : DriverEvent.workerFlow key tr res ∈ mainDriver g env) :
    ∃ T cfg, (orchFlowRun g env).2 = .ok T ∧ (key, cfg) ∈ AGENTS g ∧
      tr = (get_actor_token_3step cfg.agent_id cfg.agent_secret
        g.TOKEN_EXCHANGER_CLIENT_ID g.TOKEN_EXCHANGER_CLIENT_SECRET
        ["openid"] g.CALLBACK_URL (env.worker key)).1 := by
  unfold mainDriver at h
  split at h
  · simp at h
  next T heq =>
    rcases List.mem_cons.mp h with h | h
    · exact absurd h (by simp)
    · obtain ⟨kv, hkv, hev⟩ := List.mem_flatMap.mp h
      simp only [processWorker] at hev
      split at hev
      · simp at hev
      next hcond =>
        split at hev
        next e heq2 =>
          simp only [List.mem_singleton] at hev
          rw [DriverEvent.workerFlow.injEq] at hev
          obtain ⟨hk, htr, -⟩ := hev
          subst hk
          exact ⟨T, kv.2, heq, (Prod.mk.eta (p := kv)) ▸ hkv, htr⟩
        next tok heq2 =>
          simp only [List.mem_cons, List.not_mem_nil, or_false] at hev
          rcases hev with hev | hev
          · rw [DriverEvent.workerFlow.injEq] at hev
            obtain ⟨hk, htr, -⟩ := hev
            subst hk
            exact ⟨T, kv.2, heq, (Prod.mk.eta (p := kv)) ▸ hkv, htr⟩
          · exact absurd hev (by simp)

/-- C5 (amended): every step-1 authorize request the driver causes — for the
orchestrator and for each worker — carries the fixed scope string `"openid"`
(not the worker's configured scope set), together with the fronting
application's credentials via basic auth, the flow's PKCE challenge, the
direct response mode and the fixed redirect target. -/
theorem step1_scope_is_fixed_openid (g : Globals) (env : DriverEnv) :
    (∀ key tr res, DriverEvent.workerFlow key tr res ∈ mainDriver g env →
      ∀ q, Request.authorize q ∈ tr →
        q.scope = "openid" ∧
        q.code_challenge = (generate_pkce ((env.worker key).verifier)).2 ∧
        q.redirect_uri = g.CALLBACK_URL ∧
        q.response_mode = "direct" ∧
        q.client_id = g.TOKEN_EXCHANGER_CLIENT_ID ∧
        q.basicAuth = basicAuthOf g.TOKEN_EXCHANGER_CLIENT_ID
          g.TOKEN_EXCHANGER_CLIENT_SECRET) ∧
    (∀ tr res, DriverEvent.orchFlow tr res ∈ mainDriver g env →
      ∀ q, Request.authorize q ∈ tr →
        q.scope = "openid" ∧
        q.code_challenge = (generate_pkce env.orch.verifier).2 ∧
        q.redirect_uri = g.CALLBACK_URL ∧
        q.response_mode = "direct" ∧
        q.client_id = g.ORCHESTRATOR_CLIENT_ID ∧
        q.basicAuth = basicAuthOf g.ORCHESTRATOR_CLIENT_ID
          g.ORCHESTRATOR_CLIENT_SECRET) := by
  constructor
  · intro key tr res hev q hq
    obtain ⟨T, cfg, hT, hmem, htr⟩ := workerFlow_mem_mainDriver g env key tr res hev
    subst htr
    have hq' := authorize_req_of_flow cfg.agent_id cfg.agent_secret
      g.TOKEN_EXCHANGER_CLIENT_ID g.TOKEN_EXCHANGER_CLIENT_SECRET
      ["openid"] g.CALLBACK_URL (env.worker key) q hq
    subst hq'
    exact ⟨rfl, rfl, rfl, rfl, rfl, rfl⟩
  · intro tr res hev q hq
    obtain ⟨htr, -⟩ := orchFlow_mem_mainDriver g env tr res hev
    subst htr
    have hq' := authorize_req_of_flow g.ORCHESTRATOR_AGENT_ID
      g.ORCHESTRATOR_AGENT_SECRET g.ORCHESTRATOR_CLIENT_ID
      g.ORCHESTRATOR_CLIENT_SECRET ["openid"] g.CALLBACK_URL env.orch q hq
    subst hq'
    exact ⟨rfl, rfl, rfl, rfl, rfl, rfl⟩

/-- Does some processed hr worker flow send a step-1 request whose scope field
is exactly `"openid"`? -/
def hrAuthorizeScopeOpenid (evs : List DriverEvent) : Bool :=
  evs.any fun ev =>
    match ev with
    | .workerFlow k tr _ =>
      k == "hr_agent" && tr.any fun r =>
        match r with
        | .authorize a => a.scope == "openid"
        | _ => false
    | _ => false

/-- Counterexample to C5 as stated: in the concrete successful run, the hr
worker — configured with scopes `hr:read hr:write` — is processed with a
step-1 request whose scope field is `"openid"`, which differs from the
space-join of its configured scopes (sorted or not). -/
theorem step1_scope_counterexample :
    hrAuthorizeScopeOpenid (mainDriver testGlobals testEnv) = true ∧
    (AGENTS testGlobals).all
      (fun kv => kv.1 != "hr_agent" || kv.2.scopes == ["hr:read", "hr:write"]) = true ∧
    ("openid" != String.intercalate " " ["hr:read", "hr:write"]) = true ∧
    ("openid" != String.intercalate " " (sortStrings ["hr:read", "hr:write"])) = true :=
  ⟨by decide, by decide, by decide, by decide⟩

/-- Witness for the amended C5 at the concrete run's orchestrator flow. -/
theorem step1_scope_is_fixed_openid_witness :
    (DriverEvent.orchFlow (orchFlowRun testGlobals testEnv).1 (.ok "tok") ∈
      mainDriver testGlobals testEnv) ∧
    (Request.authorize (mkAuthorizeRequest (some "orc") (some "orcsec")
      ["openid"] (generate_pkce "v").2 "http://localhost:8000/callback") ∈
      (orchFlowRun testGlobals testEnv).1) ∧
    ((mkAuthorizeRequest (some "orc") (some "orcsec") ["openid"]
      (generate_pkce "v").2 "http://localhost:8000/callback").scope = "openid" ∧
     (mkAuthorizeRequest (some "orc") (some "orcsec") ["openid"]
      (generate_pkce "v").2 "http://localhost:8000/callback").code_challenge =
        (generate_pkce testEnv.orch.verifier).2 ∧
     (mkAuthorizeRequest (some "orc") (some "orcsec") ["openid"]
      (generate_pkce "v").2 "http://localhost:8000/callback").redirect_uri =
        testGlobals.CALLBACK_URL ∧
     (mkAuthorizeRequest (some "orc") (some "orcsec") ["openid"]
      (generate_pkce "v").2 "http://localhost:8000/callback").response_mode = "direct" ∧
     (mkAuthorizeRequest (some "orc") (some "orcsec") ["openid"]
      (generate_pkce "v").2 "http://localhost:8000/callback").client_id =
        testGlobals.ORCHESTRATOR_CLIENT_ID ∧
     (mkAuthorizeRequest (some "orc") (some "orcsec") ["openid"]
      (generate_pkce "v").2 "http://localhost:8000/callback").basicAuth =
        basicAuthOf testGlobals.ORCHESTRATOR_CLIENT_ID
          testGlobals.ORCHESTRATOR_CLIENT_SECRET) :=
  ⟨by decide, by decide,
   (step1_scope_is_fixed_openid testGlobals testEnv).2
     (orchFlowRun testGlobals testEnv).1 (.ok "tok") (by decide)
     (mkAuthorizeRequest (some "orc") (some "orcsec") ["openid"]
       (generate_pkce "v").2 "http://localhost:8000/callback") (by decide)⟩

/-- C6: the step-3 redemption raises exactly on a non-success status or a
missing access token, returning the token verbatim otherwise. The exchange
operation raises in those two situations as well, and otherwise hands the
token to the claim display; the display returns it verbatim whenever the
token's payload decodes to a mapping — but at the failing input below, a 200
response whose access token's payload decodes to the number 5, the exchange
raises `AttributeError` instead of returning the token verbatim. -/
theorem token_endpoints_error_discipline (texId texSecret : Option String)
    (sub act : String) (scopes : List String) (r : TokenResponse) :
    (isErr (step3_result r) = true ↔ (r.status ≠ 200 ∨ r.access_token = none)) ∧
    (∀ t, r.status = 200 → r.access_token = some t → step3_result r = .ok t) ∧
    (r.status ≠ 200 →
      isErr (token_exchange_downscope texId texSecret sub act scopes r).2 = true) ∧
    (r.status = 200 → r.access_token = none →
      isErr (token_exchange_downscope texId texSecret sub act scopes r).2 = true) ∧
    (∀ t, r.status = 200 → r.access_token = some t →
      (token_exchange_downscope texId texSecret sub act scopes r).2 =
        print_jwt_claims_result t) ∧
    (∀ t kvs, decode_jwt_payload t = PyValue.obj kvs →
      print_jwt_claims_result t = .ok t) ∧
    ((token_exchange_downscope texId texSecret sub act scopes
        ⟨200, some "x.NQ.y"⟩).2 =
      .error (.attributeError "object has no attribute get")) := by
  obtain ⟨st, tok⟩ := r
  refine ⟨?_, ?_, ?_, ?_, ?_, ?_, rfl⟩
  · by_cases h : st = 200
    · subst h
      cases tok <;> simp [step3_result, isErr]
    · simp [step3_result, isErr, h]
  · intro t h1 h2
    subst h1
    subst h2
    simp [step3_result]
  · intro h
    simp [token_exchange_downscope, isErr, h]
  · intro h1 h2
    subst h1
    subst h2
    simp [token_exchange_downscope, isErr]
  · intro t h1 h2
    subst h1
    subst h2
    simp [token_exchange_downscope]
  · intro t kvs hd
    unfold print_jwt_claims_result
    rw [hd]

/-- Witness for C6 at concrete responses: a success returns the token
verbatim, a failure status raises, and the failing input evaluates to the
`AttributeError`. -/
theorem token_endpoints_error_discipline_witness :
    ((⟨200, some "tok"⟩ : TokenResponse).status = 200) ∧
    ((⟨200, some "tok"⟩ : TokenResponse).access_token = some "tok") ∧
    (step3_result ⟨200, some "tok"⟩ = .ok "tok") ∧
    (((⟨500, none⟩ : TokenResponse).status == 200) = false) ∧
    (isErr (token_exchange_downscope (some "tex") (some "texsec") "sub" "act"
      ["hr:read"] ⟨500, none⟩).2 = true) ∧
    ((token_exchange_downscope (some "tex") (some "texsec") "sub" "act"
      ["hr:read"] ⟨200, some "x.NQ.y"⟩).2 =
      .error (.attributeError "object has no attribute get")) :=
  ⟨rfl, rfl,
   (token_endpoints_error_discipline (some "tex") (some "texsec") "sub" "act"
     ["hr:read"] ⟨200, some "tok"⟩).2.1 "tok" rfl rfl,
   by decide,
   (token_endpoints_error_discipline (some "tex") (some "texsec") "sub" "act"
     ["hr:read"] ⟨500, none⟩).2.2.1 (by decide),
   (token_endpoints_error_discipline (some "tex") (some "texsec") "sub" "act"
     ["hr:read"] ⟨200, some "x.NQ.y"⟩).2.2.2.2.2.2⟩

/-- C7 (amended): the claim decoder is total; a token with fewer than two
dot-segments, an undecodable second segment, or a second segment that does not
parse as JSON yields the empty dict, and otherwise the parsed JSON value of
the second segment is returned as-is — which is the decoded mapping when the
payload is a JSON object but is a non-mapping value returned unchanged when
the payload is valid JSON of another type. -/
theorem decode_jwt_payload_cases (token : String) :
    ((splitDot token.data).length < 2 → decode_jwt_payload token = PyValue.obj []) ∧
    ((splitDot token.data).length ≥ 2 →
      (urlsafeB64decode (jwtPadded ((splitDot token.data).getD 1 [])) = none →
        decode_jwt_payload token = PyValue.obj []) ∧
      (∀ bs, urlsafeB64decode (jwtPadded ((splitDot token.data).getD 1 [])) = some bs →
        (jsonLoads bs = none → decode_jwt_payload token = PyValue.obj []) ∧
        (∀ v, jsonLoads bs = some v → decode_jwt_payload token = v))) := by
  unfold decode_jwt_payload
  by_cases h : (splitDot token.data).length ≥ 2
  · rw [if_pos h]
    refine ⟨fun hlt => absurd h (by omega), fun _ =>
      ⟨fun hb => by simp only [hb], fun bs hb =>
        ⟨fun hj => by simp only [hb, hj], fun v hj => by simp only [hb, hj]⟩⟩⟩
  · rw [if_neg h]
    exact ⟨fun _ => rfl, fun h2 => absurd h2 h⟩

/-- Witness for the amended C7 at the concrete input whose payload segment is
valid JSON but not an object. -/
theorem decode_jwt_payload_cases_witness :
    ((splitDot "h.NQ.s".data).length ≥ 2) ∧
    (urlsafeB64decode (jwtPadded ((splitDot "h.NQ.s".data).getD 1 [])) = some [53]) ∧
    (jsonLoads [53] = some (PyValue.int 5)) ∧
    decode_jwt_payload "h.NQ.s" = PyValue.int 5 :=
  ⟨by decide, rfl, rfl,
   (((decode_jwt_payload_cases "h.NQ.s").2 (by decide)).2 [53] rfl).2
     (PyValue.int 5) rfl⟩

/-- Is this Python value a mapping? -/
def isObjValue : PyValue → Bool
  | .obj _ => true
  | _ => false

/-- Counterexample to C7 as stated: on the input `"h.NQ.s"` the second segment
decodes to the JSON number 5, and the decoder returns the integer 5 — not a
mapping, and in particular not the empty mapping. -/
theorem decode_jwt_payload_counterexample :
    decode_jwt_payload "h.NQ.s" = PyValue.int 5 ∧
    isObjValue (decode_jwt_payload "h.NQ.s") = false :=
  ⟨rfl, rfl⟩

/-- `Option.getD "" ` yields either the Python string rendering or the empty
string. -/
theorem getD_mem_ambient (o : Option String) :
    o.getD "" = pyStrOpt o ∨ o.getD "" = "" := by
  cases o <;> simp [pyStrOpt]

/-- The Python `or` of two optional strings, defaulted to `""`, is one of the
two renderings or empty. -/
theorem pyOr_getD_mem (a b : Option String) :
    (pyOr a b).getD "" = pyStrOpt a ∨ (pyOr a b).getD "" = pyStrOpt b ∨
      (pyOr a b).getD "" = "" := by
  unfold pyOr
  split
  next ht =>
    cases a with
    | none => simp [pyTruthy] at ht
    | some s => exact Or.inl rfl
  next ht =>
    rcases getD_mem_ambient b with h | h
    · exact Or.inr (Or.inl h)
    · exact Or.inr (Or.inr h)

/-- Analysis of a successful step-1 parse: either the pending branch returned
the response's flow id, or the short-circuit branch returned the truthy
embedded code. -/
theorem step1_result_cases (r : AuthorizeResponse) (fid dc : Option String)
    (h : step1_result r = .ok (fid, dc)) :
    (fid = r.flowId ∧ dc = none) ∨
    (fid = none ∧ dc = pyOr r.code r.authDataCode ∧
      pyTruthy (pyOr r.code r.authDataCode) = true) := by
  simp only [step1_result] at h
  split at h
  next hdir =>
    split at h
    next ht =>
      rw [Except.ok.injEq, Prod.mk.injEq] at h
      exact Or.inr ⟨h.1.symm, h.2.symm, ht⟩
    · split at h
      · rw [Except.ok.injEq, Prod.mk.injEq] at h
        exact Or.inl ⟨h.1.symm, h.2.symm⟩
      · exact Except.noConfusion h
  · split at h
    · rw [Except.ok.injEq, Prod.mk.injEq] at h
      exact Or.inl ⟨h.1.symm, h.2.symm⟩
    · exact Except.noConfusion h

/-- A successful step-2 parse returns the defaulted Python `or` of the two
code locations. -/
theorem step2_result_ok (r : AuthnResponse) (code : String)
    (h : step2_result r = .ok code) :
    code = (pyOr r.code r.authDataCode).getD "" := by
  simp only [step2_result] at h
  split at h
  · exact (Except.ok.inj h).symm
  · exact Except.noConfusion h

/-- A string distinct from each rendered field is absent from an authorize
request's values. -/
theorem notin_authorizeValues (v ch : String) (ci cs : Option String)
    (scopes : List String) (cb : String)
    (h1 : v ≠ pyStrOpt ci) (h2 : v ≠ "code") (h3 : v ≠ cb)
    (h4 : v ≠ String.intercalate " " scopes) (h5 : v ≠ "direct") (h6 : v ≠ ch)
    (h7 : v ≠ "S256") (h8 : v ≠ basicAuthOf ci cs) :
    v ∉ authorizeValues (mkAuthorizeRequest ci cs scopes ch cb) := by
  simp only [authorizeValues, mkAuthorizeRequest, List.mem_cons,
    List.not_mem_nil, or_false, not_or]
  exact ⟨h1, h2, h3, h4, h5, h6, h7, h8⟩

/-- A string distinct from each rendered field is absent from an authn
request's values. -/
theorem notin_authnValues (v : String) (fid : String) (ai as : Option String)
    (h1 : v ≠ fid) (h2 : v ≠ authenticatorIdStr)
    (h3 : v ≠ pyStrOpt ai) (h4 : v ≠ pyStrOpt as) :
    v ∉ authnValues (mkAuthnRequest fid ai as) := by
  simp only [authnValues, mkAuthnRequest, List.mem_cons,
    List.not_mem_nil, or_false, not_or]
  exact ⟨h1, h2, h3, h4⟩

/-- A string distinct from each rendered field is absent from a token
request's values. -/
theorem notin_tokenValues (v : String) (ci cs : Option String)
    (code cv cb : String)
    (h1 : v ≠ "authorization_code") (h2 : v ≠ pyStrOpt ci)
    (h3 : v ≠ pyStrOpt cs) (h4 : v ≠ code) (h5 : v ≠ cv) (h6 : v ≠ cb) :
    v ∉ tokenValues (mkTokenRequest ci cs code cv cb) := by
  simp only [tokenValues, mkTokenRequest, List.mem_cons,
    List.not_mem_nil, or_false, not_or]
  exact ⟨h1, h2, h3, h4, h5, h6⟩

/-- A string distinct from each rendered field other than the verifier is
absent from a token request's non-verifier values. -/
theorem notin_tokenValuesNoVerifier (v : String) (ci cs : Option String)
    (code cv cb : String)
    (h1 : v ≠ "authorization_code") (h2 : v ≠ pyStrOpt ci)
    (h3 : v ≠ pyStrOpt cs) (h4 : v ≠ code) (h5 : v ≠ cb) :
    v ∉ tokenValuesNoVerifier (mkTokenRequest ci cs code cv cb) := by
  simp only [tokenValuesNoVerifier, mkTokenRequest, List.mem_cons,
    List.not_mem_nil, or_false, not_or]
  exact ⟨h1, h2, h3, h4, h5⟩

/-- C9: within one three-step flow — under freshness hypotheses stating that
the random verifier and the derived challenge differ from every other string
in play — the verifier appears in no value of the step-1 or step-2 request and
only as the `code_verifier` field of the step-3 request, while the challenge
is carried by the step-1 request's `code_challenge` field and appears in no
value of the step-2 or step-3 request. -/
theorem pkce_verifier_only_in_token_request
    (ai as ci cs : Option String) (scopes : List String) (cb : String)
    (fe : FlowEnv)
    (hv : fe.verifier ∉ flowAmbient ai as ci cs scopes cb fe.r1 fe.r2)
    (hc : (generate_pkce fe.verifier).2 ∉ flowAmbient ai as ci cs scopes cb fe.r1 fe.r2)
    (hvc : fe.verifier ≠ (generate_pkce fe.verifier).2) :
    (∀ q, Request.authorize q ∈ (get_actor_token_3step ai as ci cs scopes cb fe).1 →
      q.code_challenge = (generate_pkce fe.verifier).2 ∧
      fe.verifier ∉ authorizeValues q) ∧
    (∀ q, Request.authn q ∈ (get_actor_token_3step ai as ci cs scopes cb fe).1 →
      fe.verifier ∉ authnValues q ∧
      (generate_pkce fe.verifier).2 ∉ authnValues q) ∧
    (∀ q, Request.token q ∈ (get_actor_token_3step ai as ci cs scopes cb fe).1 →
      q.code_verifier = fe.verifier ∧
      fe.verifier ∉ tokenValuesNoVerifier q ∧
      (generate_pkce fe.verifier).2 ∉ tokenValues q) := by
  simp only [flowAmbient, List.mem_cons, List.not_mem_nil, or_false, not_or] at hv hc
  obtain ⟨hv1, hv2, hv3, hv4, hv5, hv6, hv7, hv8, hv9, hv10, hv11, hv12, hv13,
    hv14, hv15, hv16, hv17, hv18⟩ := hv
  obtain ⟨hc1, hc2, hc3, hc4, hc5, hc6, hc7, hc8, hc9, hc10, hc11, hc12, hc13,
    hc14, hc15, hc16, hc17, hc18⟩ := hc
  have hA : fe.verifier ∉ authorizeValues
      (mkAuthorizeRequest ci cs scopes (generate_pkce fe.verifier).2 cb) :=
    notin_authorizeValues _ _ _ _ _ _ hv3 hv6 hv5 hv11 hv7 hvc hv8 hv12
  have hvcode1 : fe.verifier ≠ (pyOr fe.r1.code fe.r1.authDataCode).getD "" := by
    rcases pyOr_getD_mem fe.r1.code fe.r1.authDataCode with h | h | h <;> rw [h]
    exacts [hv14, hv15, hv18]
  have hvcode2 : fe.verifier ≠ (pyOr fe.r2.code fe.r2.authDataCode).getD "" := by
    rcases pyOr_getD_mem fe.r2.code fe.r2.authDataCode with h | h | h <;> rw [h]
    exacts [hv16, hv17, hv18]
  have hccode1 : (generate_pkce fe.verifier).2 ≠
      (pyOr fe.r1.code fe.r1.authDataCode).getD "" := by
    rcases pyOr_getD_mem fe.r1.code fe.r1.authDataCode with h | h | h <;> rw [h]
    exacts [hc14, hc15, hc18]
  have hccode2 : (generate_pkce fe.verifier).2 ≠
      (pyOr fe.r2.code fe.r2.authDataCode).getD "" := by
    rcases pyOr_getD_mem fe.r2.code fe.r2.authDataCode with h | h | h <;> rw [h]
    exacts [hc16, hc17, hc18]
  have hvfid : fe.verifier ≠ fe.r1.flowId.getD "" := by
    rcases getD_mem_ambient fe.r1.flowId with h | h <;> rw [h]
    exacts [hv13, hv18]
  have hcfid : (generate_pkce fe.verifier).2 ≠ fe.r1.flowId.getD "" := by
    rcases getD_mem_ambient fe.r1.flowId with h | h <;> rw [h]
    exacts [hc13, hc18]
  simp only [get_actor_token_3step]
  split
  next e heq =>
    refine ⟨?_, ?_, ?_⟩
    · intro q hq
      simp only [List.mem_singleton, Request.authorize.injEq] at hq
      subst hq
      exact ⟨rfl, hA⟩
    · intro q hq
      simp at hq
    · intro q hq
      simp at hq
  next flow_id direct_code heq =>
    split
    next hdc =>
      have hdc' : direct_code = pyOr fe.r1.code fe.r1.authDataCode := by
        rcases step1_result_cases fe.r1 flow_id direct_code heq with ⟨-, h⟩ | ⟨-, h, -⟩
        · rw [h] at hdc
          simp [pyTruthy] at hdc
        · exact h
      split <;>
        refine ⟨?_, ?_, ?_⟩ <;> intro q hq <;>
          simp only [List.mem_cons, List.mem_singleton, List.not_mem_nil,
            or_false] at hq
      · rcases hq with hq | hq
        · rw [Request.authorize.injEq] at hq
          subst hq
          exact ⟨rfl, hA⟩
        · exact absurd hq (by simp)
      · rcases hq with hq | hq <;> exact absurd hq (by simp)
      · rcases hq with hq | hq
        · exact absurd hq (by simp)
        · rw [Request.token.injEq] at hq
          subst hq
          rw [hdc']
          exact ⟨rfl, notin_tokenValuesNoVerifier _ _ _ _ _ _ hv9 hv3 hv4 hvcode1 hv5,
            notin_tokenValues _ _ _ _ _ _ hc9 hc3 hc4 hccode1 (Ne.symm hvc) hc5⟩
      · rcases hq with hq | hq
        · rw [Request.authorize.injEq] at hq
          subst hq
          exact ⟨rfl, hA⟩
        · exact absurd hq (by simp)
      · rcases hq with hq | hq <;> exact absurd hq (by simp)
      · rcases hq with hq | hq
        · exact absurd hq (by simp)
        · rw [Request.token.injEq] at hq
          subst hq
          rw [hdc']
          exact ⟨rfl, notin_tokenValuesNoVerifier _ _ _ _ _ _ hv9 hv3 hv4 hvcode1 hv5,
            notin_tokenValues _ _ _ _ _ _ hc9 hc3 hc4 hccode1 (Ne.symm hvc) hc5⟩
    next hdc =>
      have hfid' : flow_id = fe.r1.flowId := by
        rcases step1_result_cases fe.r1 flow_id direct_code heq with ⟨h, -⟩ | ⟨-, h, ht⟩
        · exact h
        · rw [h] at hdc
          exact absurd ht hdc
      have hN : fe.verifier ∉ authnValues (mkAuthnRequest (flow_id.getD "") ai as) := by
        rw [hfid']
        exact notin_authnValues _ _ _ _ hvfid hv10 hv1 hv2
      have hNc : (generate_pkce fe.verifier).2 ∉
          authnValues (mkAuthnRequest (flow_id.getD "") ai as) := by
        rw [hfid']
        exact notin_authnValues _ _ _ _ hcfid hc10 hc1 hc2
      split
      next e2 heq2 =>
        refine ⟨?_, ?_, ?_⟩ <;> intro q hq <;>
          simp only [List.mem_cons, List.mem_singleton, List.not_mem_nil,
            or_false] at hq
        · rcases hq with hq | hq
          · rw [Request.authorize.injEq] at hq
            subst hq
            exact ⟨rfl, hA⟩
          · exact absurd hq (by simp)
        · rcases hq with hq | hq
          · exact absurd hq (by simp)
          · rw [Request.authn.injEq] at hq
            subst hq
            exact ⟨hN, hNc⟩
        · rcases hq with hq | hq <;> exact absurd hq (by simp)
      next code heq2 =>
        have hcode' : code = (pyOr fe.r2.code fe.r2.authDataCode).getD "" :=
          step2_result_ok fe.r2 code heq2
        split <;>
          refine ⟨?_, ?_, ?_⟩ <;> intro q hq <;>
            simp only [List.mem_cons, List.mem_singleton, List.not_mem_nil,
              or_false] at hq
        · rcases hq with hq | hq | hq
          · rw [Request.authorize.injEq] at hq
            subst hq
            exact ⟨rfl, hA⟩
          · exact absurd hq (by simp)
          · exact absurd hq (by simp)
        · rcases hq with hq | hq | hq
          · exact absurd hq (by simp)
          · rw [Request.authn.injEq] at hq
            subst hq
            exact ⟨hN, hNc⟩
          · exact absurd hq (by simp)
        · rcases hq with hq | hq | hq
          · exact absurd hq (by simp)
          · exact absurd hq (by simp)
          · rw [Request.token.injEq] at hq
            subst hq
            rw [hcode']
            exact ⟨rfl, notin_tokenValuesNoVerifier _ _ _ _ _ _ hv9 hv3 hv4 hvcode2 hv5,
              notin_tokenValues _ _ _ _ _ _ hc9 hc3 hc4 hccode2 (Ne.symm hvc) hc5⟩
        · rcases hq with hq | hq | hq
          · rw [Request.authorize.injEq] at hq
            subst hq
            exact ⟨rfl, hA⟩
          · exact absurd hq (by simp)
          · exact absurd hq (by simp)
        · rcases hq with hq | hq | hq
          · exact absurd hq (by simp)
          · rw [Request.authn.injEq] at hq
            subst hq
            exact ⟨hN, hNc⟩
          · exact absurd hq (by simp)
        · rcases hq with hq | hq | hq
          · exact absurd hq (by simp)
          · exact absurd hq (by simp)
          · rw [Request.token.injEq] at hq
            subst hq
            rw [hcode']
            exact ⟨rfl, notin_tokenValuesNoVerifier _ _ _ _ _ _ hv9 hv3 hv4 hvcode2 hv5,
              notin_tokenValues _ _ _ _ _ _ hc9 hc3 hc4 hccode2 (Ne.symm hvc) hc5⟩

/-- Witness for C9 at a concrete flow with fresh verifier and challenge. -/
theorem pkce_verifier_only_in_token_request_witness :
    (okFlowEnv.verifier ∉ flowAmbient (some "a") (some "s") (some "c")
      (some "cs") ["openid"] "cb" okFlowEnv.r1 okFlowEnv.r2) ∧
    ((generate_pkce okFlowEnv.verifier).2 ∉ flowAmbient (some "a") (some "s")
      (some "c") (some "cs") ["openid"] "cb" okFlowEnv.r1 okFlowEnv.r2) ∧
    (okFlowEnv.verifier ≠ (generate_pkce okFlowEnv.verifier).2) ∧
    ((∀ q, Request.authorize q ∈ (get_actor_token_3step (some "a") (some "s")
        (some "c") (some "cs") ["openid"] "cb" okFlowEnv).1 →
      q.code_challenge = (generate_pkce okFlowEnv.verifier).2 ∧
      okFlowEnv.verifier ∉ authorizeValues q) ∧
    (∀ q, Request.authn q ∈ (get_actor_token_3step (some "a") (some "s")
        (some "c") (some "cs") ["openid"] "cb" okFlowEnv).1 →
      okFlowEnv.verifier ∉ authnValues q ∧
      (generate_pkce okFlowEnv.verifier).2 ∉ authnValues q) ∧
    (∀ q, Request.token q ∈ (get_actor_token_3step (some "a") (some "s")
        (some "c") (some "cs") ["openid"] "cb" okFlowEnv).1 →
      q.code_verifier = okFlowEnv.verifier ∧
      okFlowEnv.verifier ∉ tokenValuesNoVerifier q ∧
      (generate_pkce okFlowEnv.verifier).2 ∉ tokenValues q)) :=
  ⟨by decide, by decide, by decide,
   pkce_verifier_only_in_token_request (some "a") (some "s") (some "c")
     (some "cs") ["openid"] "cb" okFlowEnv (by decide) (by decide) (by decide)⟩

end TokenFlow
